import Mathlib

/-!
Verification of the wa-gateway repository core: the phone-number
normalizer (src/src/utils/phone.util.ts), the connection-lifecycle state
machine and dispatch engine (src/src/services/whatsapp.service.ts), the
message-log ring buffer, and the hardened anti-ban service variant
(appended in src/src/types/index.ts).

Strings from the TypeScript source are modelled as lists of characters
(`Str`), asynchronous transport calls as explicit outcome parameters, and
side effects on the transport as an event trace.
-/

namespace WaGateway

/-- JavaScript strings are modelled as lists of characters. -/
abbrev Str := List Char

/-- Coercion from Lean string literals into the model. -/
def str (s : String) : Str := s.data

/-! ## Phone Target Normalizer (src/src/utils/phone.util.ts) -/

/-- Embeds `phoneNumber.replace(/[^0-9]/g, '')`: keep only the
characters 0-9. -/
def cleanDigits (s : Str) : Str := s.filter (fun c => c.isDigit)

/-- Embeds JavaScript `s.startsWith(p)` over the list model. -/
def strStartsWith : Str → Str → Bool
  | _, [] => true
  | [], _ :: _ => false
  | c :: s, p :: ps => (c == p) && strStartsWith s ps

/-- Embeds `formatPhoneNumber` from src/src/utils/phone.util.ts:
strip non-digits; if the cleaned length is outside [10,15] return the
input unchanged; if the cleaned string starts with 0 replace that digit
by the default country code; else prepend the code unless it is already
the leading substring. -/
def formatPhoneNumber (phoneNumber : Str) (defaultCountryCode : Str := str "62") : Str :=
  let cleaned := cleanDigits phoneNumber
  if cleaned.length < 10 ∨ cleaned.length > 15 then
    phoneNumber
  else if strStartsWith cleaned (str "0") then
    defaultCountryCode ++ cleaned.drop 1
  else if !(strStartsWith cleaned defaultCountryCode) then
    defaultCountryCode ++ cleaned
  else
    cleaned

/-- The normalizer as the specification describes it, for the refinement
argument: strip non-digits; when the cleaned length is within [10,15],
replace a leading 0 by the country code, else prepend the code when not
already present; otherwise return the input unchanged. -/
def normalizeSpec (raw : Str) (countryCode : Str := str "62") : Str :=
  let cleaned := raw.filter (fun c => c.isDigit)
  if 10 ≤ cleaned.length ∧ cleaned.length ≤ 15 then
    if strStartsWith cleaned (str "0") then
      countryCode ++ cleaned.drop 1
    else if strStartsWith cleaned countryCode then
      cleaned
    else
      countryCode ++ cleaned
  else
    raw

/-! ## Data model (src/src/types/index.ts and whatsapp.service.ts fields) -/

/-- The `status` field of `MessageResponse`. -/
inductive DispatchStatus where
  | sent
  | error
  | disconnected
  | invalid_number
deriving DecidableEq, Repr

/-- Embeds the `MessageResponse` interface of src/src/types/index.ts. -/
structure MessageResponse where
  success : Bool
  status : DispatchStatus
  message : Str
  target : Option Str := none
  id : Option Str := none
deriving DecidableEq, Repr

/-- Embeds the `MessageLog` entry interface of whatsapp.service.ts. -/
structure MessageLog where
  timestamp : Nat
  target : Str
  message : Str
  success : Bool
  id : Option Str := none
  error : Option Str := none
deriving DecidableEq, Repr

/-- The mutable fields of the `WhatsAppService` class in
src/src/services/whatsapp.service.ts. `connectionState` is inlined as
its three fields plus the immutable `startTime`. -/
structure SvcState where
  isConnected : Bool
  phoneNumber : Option Str
  startTime : Nat
  qrDisplayed : Bool
  messageDelay : Nat
  isReady : Bool
  waState : Str
  qrCodeBase64 : Option Str
  messageLogs : List MessageLog
deriving DecidableEq, Repr

/-- The constructor state of `WhatsAppService`: disconnected, no phone
number, no QR, empty log, `waState = IDLE`. -/
def initState (startTime messageDelay : Nat) : SvcState :=
  { isConnected := false
    phoneNumber := none
    startTime := startTime
    qrDisplayed := false
    messageDelay := messageDelay
    isReady := false
    waState := str "IDLE"
    qrCodeBase64 := none
    messageLogs := [] }

/-! ## Message log ring buffer (whatsapp.service.ts addMessageLog) -/

/-- `MAX_LOGS` from whatsapp.service.ts. -/
def MAX_LOGS : Nat := 100

/-- Embeds `addMessageLog`: push to the end, then if the length exceeds
`MAX_LOGS`, shift the oldest entry off the front. -/
def addMessageLog (logs : List MessageLog) (log : MessageLog) : List MessageLog :=
  let pushed := logs ++ [log]
  if MAX_LOGS < pushed.length then pushed.tail else pushed

/-- Embeds `getMessageLogs`: a reversed copy, most recent first. -/
def getMessageLogs (logs : List MessageLog) : List MessageLog :=
  logs.reverse

/-! ## Transport lifecycle events (whatsapp.service.ts setupEventHandlers) -/

/-- The transport events whose handlers mutate service state. The `qr`
event carries the raw code and the result of the (fallible) base64
rendering; the `ready` event carries `client.info` as an optional phone
number. -/
inductive WAEvent where
  | qr (code : Str) (rendered : Option Str)
  | authenticated
  | ready (info : Option Str)
  | auth_failure (msg : Str)
  | change_state (state : Str)
  | disconnected (reason : Str)
deriving DecidableEq, Repr

/-- Embeds the `client.on(...)` handlers of `setupEventHandlers`. The
`disconnected` handler additionally schedules a deferred `initialize()`;
that side effect does not touch the fields modelled here. -/
def handleEvent (st : SvcState) : WAEvent → SvcState
  | .qr _ rendered =>
      { st with
        qrCodeBase64 := match rendered with
          | some r => some r
          | none => st.qrCodeBase64
        qrDisplayed := true
        waState := str "WAITING_FOR_QR_SCAN" }
  | .authenticated =>
      { st with waState := str "AUTHENTICATED" }
  | .ready info =>
      let st := { st with
        isConnected := true
        qrDisplayed := false
        isReady := true
        waState := str "CONNECTED"
        qrCodeBase64 := none }
      match info with
      | some user => { st with phoneNumber := some user }
      | none => st
  | .auth_failure _ =>
      { st with isConnected := false, isReady := false, waState := str "AUTH_FAILURE" }
  | .change_state s =>
      { st with waState := s }
  | .disconnected _ =>
      { st with isConnected := false, isReady := false, waState := str "DISCONNECTED" }

/-- A state reachable from the constructor state by a sequence of
transport events. -/
def runEvents (st : SvcState) (events : List WAEvent) : SvcState :=
  events.foldl handleEvent st

/-! ## Dispatch engine (whatsapp.service.ts sendMessage / sendBroadcast) -/

/-- Outcome of one `client.sendMessage` transport round-trip: a message
id on success, a thrown error message on failure. -/
inductive SendOutcome where
  | ok (id : Str)
  | err (msg : Str)
deriving DecidableEq, Repr

/-- Observable external actions of the dispatch engine: a transport send
to a chat id, or a suspension for `ms` milliseconds. -/
inductive Ev where
  | sendEv (chatId : Str) (message : Str)
  | delayEv (ms : Nat)
deriving DecidableEq, Repr

/-- The not-connected reply text of `sendMessage`. -/
def notConnectedMessage : Str :=
  str "WhatsApp is not connected. Please scan QR code."

/-- Embeds `sendMessage` of whatsapp.service.ts. `now` is the wall
clock read by `new Date()`, `outcome` the transport's response. Returns
the `MessageResponse`, the updated service state, and the trace of
transport actions performed. -/
def sendMessage (st : SvcState) (target message : Str) (now : Nat)
    (outcome : SendOutcome) : MessageResponse × SvcState × List Ev :=
  if st.isReady = false then
    ({ success := false
       status := .disconnected
       message := notConnectedMessage }, st, [])
  else
    let formattedNumber := formatPhoneNumber target
    let chatId := formattedNumber ++ str "@c.us"
    match outcome with
    | .ok mid =>
        let log : MessageLog :=
          { timestamp := now
            target := formattedNumber
            message := message.take 100
            success := true
            id := some mid }
        ({ success := true
           status := .sent
           message := str "Message sent successfully"
           target := some formattedNumber
           id := some mid },
         { st with messageLogs := addMessageLog st.messageLogs log },
         [Ev.sendEv chatId message])
    | .err e =>
        let log : MessageLog :=
          { timestamp := now
            target := formatPhoneNumber target
            message := message.take 100
            success := false
            error := some e }
        ({ success := false
           status := .error
           message := str "Failed to send message: " ++ e
           target := some (formatPhoneNumber target) },
         { st with messageLogs := addMessageLog st.messageLogs log },
         [Ev.sendEv chatId message])

/-- Embeds the loop body of `sendBroadcast`: one `sendMessage` per
target in order, threading the state, with a `delay(messageDelay)` after
every target except the last (`i < targets.length - 1`). `env i` is the
transport outcome of the send for the target at index `i`. -/
def sendBroadcastAux (d : Nat) (message : Str) (env : Nat → SendOutcome) (now : Nat) :
    SvcState → List Str → Nat → List MessageResponse × SvcState × List Ev
  | st, [], _ => ([], st, [])
  | st, t :: ts, i =>
      let one := sendMessage st t message now (env i)
      let rest := sendBroadcastAux d message env now one.2.1 ts (i + 1)
      (one.1 :: rest.1, rest.2.1,
        one.2.2 ++ (if ts.isEmpty then [] else [Ev.delayEv d]) ++ rest.2.2)

/-- Embeds `sendBroadcast` of whatsapp.service.ts. -/
def sendBroadcast (st : SvcState) (targets : List Str) (message : Str)
    (now : Nat) (env : Nat → SendOutcome) :
    List MessageResponse × SvcState × List Ev :=
  sendBroadcastAux st.messageDelay message env now st targets 0

/-! ## initialize (whatsapp.service.ts initialize) -/

/-- Outcome of the `client.initialize()` transport call. -/
inductive InitOutcome where
  | ok
  | fail (e : Str)
deriving DecidableEq, Repr

/-- Observable actions of `initialize` and `logout`. -/
inductive Act where
  | clientInitialize
  | clientLogout
  | clientDestroy
  | createClient
  | initializeBackground
deriving DecidableEq, Repr

/-- Embeds `initialize` of whatsapp.service.ts: a guarded no-op when the
state is already `INITIALIZING` or the service is ready; otherwise marks
`INITIALIZING`, performs the best-effort stale-lock cleanup (pure
filesystem effect, outside the modelled state), and awaits
`client.initialize()`, setting `waState = ERROR` and rethrowing on
failure. Returns the call result, the state, and the action trace. -/
def initializeSvc (st : SvcState) (outcome : InitOutcome) :
    Except Str Unit × SvcState × List Act :=
  if st.waState = str "INITIALIZING" ∨ st.isReady = true then
    (.ok (), st, [])
  else
    let st1 := { st with waState := str "INITIALIZING" }
    match outcome with
    | .ok => (.ok (), st1, [Act.clientInitialize])
    | .fail e => (.error e, { st1 with waState := str "ERROR" }, [Act.clientInitialize])

/-! ## Hardened anti-ban service variant (appended in src/src/types/index.ts):
daily counter and the full logout/re-create flow. -/

/-- The mutable fields of the hardened `WhatsAppService` variant: the
base fields plus the daily message counter and its reset date. -/
structure ABState where
  isConnected : Bool
  phoneNumber : Option Str
  startTime : Nat
  qrDisplayed : Bool
  messageDelay : Nat
  isReady : Bool
  waState : Str
  qrCodeBase64 : Option Str
  messageLogs : List MessageLog
  dailyMessageCount : Nat
  lastResetDate : Str
deriving DecidableEq, Repr

/-- Embeds `sendMessage` of the hardened variant (types/index.ts lines
271-366): not-ready guard, daily-counter rollover when the calendar day
changed, daily-limit check, transport send (the typing simulation's
errors are swallowed and touch no modelled state), counter increment on
success, and logging. `today` is `new Date().toDateString()` and
`limit` the configured `DAILY_MESSAGE_LIMIT`. -/
def sendMessageAB (limit : Nat) (st : ABState) (target message : Str)
    (today : Str) (now : Nat) (outcome : SendOutcome) :
    MessageResponse × ABState × List Ev :=
  if st.isReady = false then
    ({ success := false
       status := .disconnected
       message := notConnectedMessage }, st, [])
  else
    let formattedNumber := formatPhoneNumber target
    let chatId := formattedNumber ++ str "@c.us"
    let st1 :=
      if st.lastResetDate ≠ today then
        { st with dailyMessageCount := 0, lastResetDate := today }
      else st
    if limit ≤ st1.dailyMessageCount then
      ({ success := false
         status := .error
         message := str "Daily message limit reached (" ++ (Nat.repr limit).data
           ++ str "). Try again tomorrow."
         target := some formattedNumber }, st1, [])
    else
      match outcome with
      | .ok mid =>
          let log : MessageLog :=
            { timestamp := now
              target := formattedNumber
              message := message.take 100
              success := true
              id := some mid }
          ({ success := true
             status := .sent
             message := str "Message sent successfully"
             target := some formattedNumber
             id := some mid },
           { st1 with
             dailyMessageCount := st1.dailyMessageCount + 1
             messageLogs := addMessageLog st1.messageLogs log },
           [Ev.sendEv chatId message])
      | .err e =>
          let log : MessageLog :=
            { timestamp := now
              target := formatPhoneNumber target
              message := message.take 100
              success := false
              error := some e }
          ({ success := false
             status := .error
             message := str "Failed to send message: " ++ e
             target := some (formatPhoneNumber target) },
           { st1 with messageLogs := addMessageLog st1.messageLogs log },
           [Ev.sendEv chatId message])

/-- Embeds `logout` of the hardened variant (types/index.ts lines
461-502). The graceful `client.logout()` and the `client.destroy()` are
each wrapped in their own try/catch whose failure is only logged, so
both branches of each outcome continue identically; afterwards the state
is reset to a pre-pairing configuration, a new client is created, and
`initialize()` is started in the background without being awaited. The
result is `Except.ok` on every path: no teardown error reaches the
caller. -/
def logoutAB (st : ABState) (logoutOutcome destroyOutcome : Except Str Unit) :
    Except Str (ABState × List Act) :=
  let afterLogout : List Act :=
    match logoutOutcome with
    | .ok _ => [Act.clientLogout]
    | .error _ => [Act.clientLogout]
  let afterDestroy : List Act :=
    match destroyOutcome with
    | .ok _ => afterLogout ++ [Act.clientDestroy]
    | .error _ => afterLogout ++ [Act.clientDestroy]
  let st1 := { st with
    isReady := false
    isConnected := false
    phoneNumber := none
    waState := str "REINITIALIZING"
    qrCodeBase64 := none }
  Except.ok (st1, afterDestroy ++ [Act.createClient, Act.initializeBackground])

/-! ## Expected shapes for the broadcast claim -/

/-- The chat id `formatPhoneNumber(target) + "@c.us"` used by the
transport send. -/
def chatIdOf (target : Str) : Str :=
  formatPhoneNumber target ++ str "@c.us"

/-- The response `sendMessage` produces for one target on a ready
service, as a function of the transport outcome. -/
def readyResponse (target : Str) (outcome : SendOutcome) : MessageResponse :=
  match outcome with
  | .ok mid =>
      { success := true
        status := .sent
        message := str "Message sent successfully"
        target := some (formatPhoneNumber target)
        id := some mid }
  | .err e =>
      { success := false
        status := .error
        message := str "Failed to send message: " ++ e
        target := some (formatPhoneNumber target) }

/-- The per-target responses of a broadcast on a ready service, in input
order, one per target, independent across targets. -/
def expectedResults (env : Nat → SendOutcome) :
    List Str → Nat → List MessageResponse
  | [], _ => []
  | t :: ts, i => readyResponse t (env i) :: expectedResults env ts (i + 1)

/-- The action trace of a broadcast on a ready service: the sends in
input order with one delay between each successive pair and none after
the last. -/
def expectedTrace (d : Nat) (message : Str) : List Str → List Ev
  | [] => []
  | [t] => [Ev.sendEv (chatIdOf t) message]
  | t :: u :: ts =>
      Ev.sendEv (chatIdOf t) message :: Ev.delayEv d :: expectedTrace d message (u :: ts)

/-! ## Helper lemmas for the normalizer -/

@[simp] theorem strStartsWith_any_nil (s : Str) : strStartsWith s [] = true := by
  cases s <;> rfl

@[simp] theorem strStartsWith_nil_cons (p : Char) (ps : Str) :
    strStartsWith [] (p :: ps) = false := rfl

@[simp] theorem strStartsWith_cons_cons (c : Char) (s : Str) (p : Char) (ps : Str) :
    strStartsWith (c :: s) (p :: ps) = ((c == p) && strStartsWith s ps) := rfl

theorem str_zero_eq : str "0" = ['0'] := rfl

theorem str_code_eq : str "62" = ['6', '2'] := rfl

theorem startsWith_zero_elim {l : Str} (h : strStartsWith l (str "0") = true) :
    ∃ t, l = '0' :: t := by
  cases l with
  | nil => rw [str_zero_eq] at h; simp at h
  | cons a t =>
      rw [str_zero_eq] at h
      simp at h
      exact ⟨t, by rw [h]⟩

theorem startsWith_code_head {l : Str} (h : strStartsWith l (str "62") = true) :
    ∃ t, l = '6' :: t := by
  cases l with
  | nil => rw [str_code_eq] at h; simp at h
  | cons a t =>
      rw [str_code_eq] at h
      simp at h
      exact ⟨t, by rw [h.1]⟩

theorem mem_cleanDigits_digit {s : Str} {c : Char} (h : c ∈ cleanDigits s) :
    c.isDigit = true :=
  (List.mem_filter.mp h).2

theorem cleanDigits_eq_self {l : Str} (h : ∀ c ∈ l, c.isDigit = true) :
    cleanDigits l = l :=
  List.filter_eq_self.mpr h

theorem cleanDigits_idem (s : Str) : cleanDigits (cleanDigits s) = cleanDigits s :=
  cleanDigits_eq_self (fun _ hc => mem_cleanDigits_digit hc)

theorem cleanDigits_code_append (l : Str) :
    cleanDigits (str "62" ++ l) = str "62" ++ cleanDigits l := by
  have h62 : cleanDigits (str "62") = str "62" := by decide
  calc cleanDigits (str "62" ++ l)
      = cleanDigits (str "62") ++ cleanDigits l := List.filter_append ..
    _ = str "62" ++ cleanDigits l := by rw [h62]

theorem formatPhoneNumber_invalid {s : Str}
    (h : (cleanDigits s).length < 10 ∨ (cleanDigits s).length > 15) :
    formatPhoneNumber s = s := by
  unfold formatPhoneNumber
  simp [h]

theorem formatPhoneNumber_valid_zero {s : Str}
    (h : ¬((cleanDigits s).length < 10 ∨ (cleanDigits s).length > 15))
    (h0 : strStartsWith (cleanDigits s) (str "0") = true) :
    formatPhoneNumber s = str "62" ++ (cleanDigits s).drop 1 := by
  unfold formatPhoneNumber
  simp [h, h0]

theorem formatPhoneNumber_valid_code {s : Str}
    (h : ¬((cleanDigits s).length < 10 ∨ (cleanDigits s).length > 15))
    (h0 : strStartsWith (cleanDigits s) (str "0") = false)
    (hc : strStartsWith (cleanDigits s) (str "62") = true) :
    formatPhoneNumber s = cleanDigits s := by
  unfold formatPhoneNumber
  simp [h, h0, hc]

theorem formatPhoneNumber_valid_nocode {s : Str}
    (h : ¬((cleanDigits s).length < 10 ∨ (cleanDigits s).length > 15))
    (h0 : strStartsWith (cleanDigits s) (str "0") = false)
    (hc : strStartsWith (cleanDigits s) (str "62") = false) :
    formatPhoneNumber s = str "62" ++ cleanDigits s := by
  unfold formatPhoneNumber
  simp [h, h0, hc]

/-- Any all-digit string that starts with the default country code is a
fixed point of the normalizer. -/
theorem formatPhoneNumber_fixed_of_clean_code {x : Str}
    (hclean : cleanDigits x = x)
    (hc : strStartsWith x (str "62") = true) :
    formatPhoneNumber x = x := by
  by_cases hlen : (cleanDigits x).length < 10 ∨ (cleanDigits x).length > 15
  · exact formatPhoneNumber_invalid hlen
  · obtain ⟨t, rfl⟩ := startsWith_code_head hc
    have h0 : strStartsWith ('6' :: t) (str "0") = false := by
      rw [str_zero_eq]; simp
    rw [formatPhoneNumber_valid_code hlen (by rw [hclean]; exact h0) (by rw [hclean]; exact hc)]
    exact hclean

/-- The country code followed by an all-digit string is a fixed point of
the normalizer. -/
theorem formatPhoneNumber_fixed_code_append {l : Str}
    (hdig : ∀ c ∈ l, c.isDigit = true) :
    formatPhoneNumber (str "62" ++ l) = str "62" ++ l := by
  apply formatPhoneNumber_fixed_of_clean_code
  · rw [cleanDigits_code_append, cleanDigits_eq_self hdig]
  · rw [str_code_eq]; simp

/-- C4: the normalizer strips non-digits; a cleaned length outside
[10,15] returns the input unchanged (and never throws — the function is
total); a cleaned string with leading 0 has that digit replaced by the
default country code 62; otherwise the code is prepended unless already
present. Stated as equality with the specification-side description
`normalizeSpec`, plus the spec's four concrete test vectors. -/
theorem c4_formatPhoneNumber_refines_spec (s : Str) :
    formatPhoneNumber s = normalizeSpec s ∧
    formatPhoneNumber (str "081234567890") = str "6281234567890" ∧
    formatPhoneNumber (str "81234567890") = str "6281234567890" ∧
    formatPhoneNumber (str "6281234567890") = str "6281234567890" ∧
    formatPhoneNumber (str "123") = str "123" := by
  refine ⟨?_, by decide, by decide, by decide, by decide⟩
  unfold formatPhoneNumber normalizeSpec
  rw [show (s.filter fun c => c.isDigit) = cleanDigits s from rfl]
  by_cases hlen : (cleanDigits s).length < 10 ∨ (cleanDigits s).length > 15
  · have h2 : ¬(10 ≤ (cleanDigits s).length ∧ (cleanDigits s).length ≤ 15) := by omega
    simp [hlen, h2]
  · have h2 : 10 ≤ (cleanDigits s).length ∧ (cleanDigits s).length ≤ 15 := by
      push_neg at hlen; omega
    cases h0 : strStartsWith (cleanDigits s) (str "0") with
    | false =>
        cases hc : strStartsWith (cleanDigits s) (str "62") with
        | false => simp [hlen, h2, h0, hc]
        | true => simp [hlen, h2, h0, hc]
    | true => simp [hlen, h2, h0]

/-- C9: the normalizer is idempotent — normalizing an already-normalized
number is a fixed point, for every input string. -/
theorem c9_formatPhoneNumber_idempotent (s : Str) :
    formatPhoneNumber (formatPhoneNumber s) = formatPhoneNumber s := by
  by_cases hlen : (cleanDigits s).length < 10 ∨ (cleanDigits s).length > 15
  · have h1 := formatPhoneNumber_invalid hlen
    rw [h1]
    exact h1
  · cases h0 : strStartsWith (cleanDigits s) (str "0") with
    | true =>
        obtain ⟨t, hct⟩ := startsWith_zero_elim h0
        have h1 := formatPhoneNumber_valid_zero hlen h0
        rw [hct] at h1
        simp only [List.drop_succ_cons, List.drop_zero] at h1
        rw [h1]
        apply formatPhoneNumber_fixed_code_append
        intro c hcm
        exact mem_cleanDigits_digit (s := s) (by rw [hct]; exact List.mem_cons_of_mem _ hcm)
    | false =>
        cases hc : strStartsWith (cleanDigits s) (str "62") with
        | true =>
            rw [formatPhoneNumber_valid_code hlen h0 hc]
            exact formatPhoneNumber_fixed_of_clean_code (cleanDigits_idem s) hc
        | false =>
            rw [formatPhoneNumber_valid_nocode hlen h0 hc]
            exact formatPhoneNumber_fixed_code_append
              (fun _ hcm => mem_cleanDigits_digit hcm)

/-! ## Ring buffer lemmas -/

/-- Folding appends over the ring buffer keeps exactly the most recent
`MAX_LOGS` entries of the concatenated history, in arrival order. -/
theorem addMessageLog_foldl (es : List MessageLog) :
    ∀ init : List MessageLog, init.length ≤ MAX_LOGS →
      es.foldl addMessageLog init =
        (init ++ es).drop (init.length + es.length - MAX_LOGS) := by
  induction es with
  | nil =>
      intro init h
      simp [Nat.sub_eq_zero_of_le h]
  | cons e es ih =>
      intro init h
      rw [List.foldl_cons]
      by_cases hlt : init.length < MAX_LOGS
      · have hadd : addMessageLog init e = init ++ [e] := by
          unfold addMessageLog
          have hno : ¬ MAX_LOGS < init.length + 1 := by omega
          simp [List.length_append, hno]
        rw [hadd, ih (init ++ [e]) (by simp [List.length_append]; omega)]
        rw [List.append_assoc, List.singleton_append, List.length_append,
          List.length_singleton]
        have harith : init.length + 1 + es.length - MAX_LOGS =
            init.length + (e :: es).length - MAX_LOGS := by
          simp [List.length_cons]; omega
        rw [harith]
      · have heq : init.length = MAX_LOGS := by omega
        obtain ⟨a, t, rfl⟩ : ∃ a t, init = a :: t := by
          cases init with
          | nil => simp [MAX_LOGS] at heq
          | cons a t => exact ⟨a, t, rfl⟩
        have hlen_t : t.length + 1 = MAX_LOGS := by
          simpa [List.length_cons] using heq
        have hadd : addMessageLog (a :: t) e = t ++ [e] := by
          unfold addMessageLog
          have hyes : MAX_LOGS < t.length + 1 + 1 := by omega
          simp [List.length_append, List.length_cons, hyes]
        rw [hadd, ih (t ++ [e]) (by simp [List.length_append]; omega)]
        rw [List.append_assoc, List.singleton_append, List.length_append,
          List.length_singleton]
        have hL : t.length + 1 + es.length - MAX_LOGS = es.length := by omega
        have hR : (a :: t).length + (e :: es).length - MAX_LOGS = es.length + 1 := by
          simp [List.length_cons]; omega
        rw [hL, hR, List.cons_append, List.drop_succ_cons]

/-- C5: starting from the empty log, any sequence of appends leaves at
most 100 entries — exactly the most recent 100 of the appended history,
oldest evicted first, in arrival order (so appending 105 entries leaves
the last 100) — and `getMessageLogs` returns them most-recent-first as a
reversed copy. -/
theorem c5_ring_buffer_bounded (es : List MessageLog) :
    (es.foldl addMessageLog []).length ≤ MAX_LOGS ∧
    es.foldl addMessageLog [] = es.drop (es.length - MAX_LOGS) ∧
    getMessageLogs (es.foldl addMessageLog []) =
      (es.drop (es.length - MAX_LOGS)).reverse := by
  have h := addMessageLog_foldl es [] (by simp)
  simp only [List.nil_append, List.length_nil, Nat.zero_add] at h
  refine ⟨?_, h, by rw [getMessageLogs, h]⟩
  rw [h, List.length_drop]
  omega

/-! ## Connection-state lemmas -/

/-- Along any event run, a present phone number can only come from the
starting state or from a handled `ready` event carrying transport
info: no other handler writes the field. -/
theorem runEvents_phoneNumber_source :
    ∀ (evs : List WAEvent) (st : SvcState),
      ((runEvents st evs).phoneNumber).isSome = true →
      st.phoneNumber.isSome = true ∨ ∃ u, WAEvent.ready (some u) ∈ evs := by
  intro evs
  induction evs with
  | nil =>
      intro st h
      exact Or.inl h
  | cons e evs ih =>
      intro st h
      have h2 := ih (handleEvent st e) h
      rcases h2 with h2 | ⟨u, hu⟩
      · cases e with
        | qr code rendered => exact Or.inl (by simpa [handleEvent] using h2)
        | authenticated => exact Or.inl (by simpa [handleEvent] using h2)
        | ready info =>
            cases info with
            | some u => exact Or.inr ⟨u, List.mem_cons_self _ _⟩
            | none => exact Or.inl (by simpa [handleEvent] using h2)
        | auth_failure msg => exact Or.inl (by simpa [handleEvent] using h2)
        | change_state s => exact Or.inl (by simpa [handleEvent] using h2)
        | disconnected reason => exact Or.inl (by simpa [handleEvent] using h2)
      · exact Or.inr ⟨u, List.mem_cons_of_mem _ hu⟩

/-- C2 counterexample: after the event sequence `ready` (with phone
info) followed by `disconnected`, the state has a present `phoneNumber`
while `isConnected = false` — the claimed invariant fails, because the
`disconnected` (and `auth_failure`) handlers clear `isConnected` but
never clear `phoneNumber`. -/
theorem c2_counterexample :
    ((runEvents (initState 0 1000)
        [WAEvent.ready (some (str "6281234567890")),
         WAEvent.disconnected (str "NAVIGATION")]).phoneNumber).isSome = true ∧
    (runEvents (initState 0 1000)
        [WAEvent.ready (some (str "6281234567890")),
         WAEvent.disconnected (str "NAVIGATION")]).isConnected = false := by
  exact ⟨rfl, rfl⟩

/-- C2 (amended): in every state reachable from the constructor state by
transport lifecycle events, `phoneNumber` is present only if some
previously handled event was a `ready` event carrying transport info;
it is not cleared by `auth_failure` or `disconnected`, so it can remain
present while `isConnected = false`. -/
theorem c2_amended_phoneNumber_from_ready (startTime messageDelay : Nat)
    (evs : List WAEvent)
    (h : ((runEvents (initState startTime messageDelay) evs).phoneNumber).isSome = true) :
    ∃ u, WAEvent.ready (some u) ∈ evs := by
  rcases runEvents_phoneNumber_source evs _ h with h2 | h2
  · simp [initState] at h2
  · exact h2

/-- C2 witness: the amended theorem applied to the one-event run that
sets the phone number. -/
theorem c2_amended_witness :
    ∃ u, WAEvent.ready (some u) ∈ [WAEvent.ready (some (str "6281234567890"))] :=
  c2_amended_phoneNumber_from_ready 0 1000 _ rfl

/-! ## Dispatch guard lemmas -/

/-- C1: a `sendMessage` call while the service is not ready returns the
`disconnected` failure response, performs no transport action, and
leaves the entire service state (connection state and message log
included) unchanged. -/
theorem c1_sendMessage_not_ready (st : SvcState) (target message : Str)
    (now : Nat) (outcome : SendOutcome) (h : st.isReady = false) :
    sendMessage st target message now outcome =
      ({ success := false
         status := .disconnected
         message := notConnectedMessage
         target := none
         id := none }, st, []) := by
  unfold sendMessage
  simp [h]

/-- C1 witness: the theorem applied to the constructor state. -/
theorem c1_witness :
    sendMessage (initState 0 1000) (str "081234567890") (str "hello") 17
        (SendOutcome.ok (str "MSGID")) =
      ({ success := false
         status := .disconnected
         message := notConnectedMessage
         target := none
         id := none }, initState 0 1000, []) :=
  c1_sendMessage_not_ready (initState 0 1000) (str "081234567890") (str "hello") 17
    (SendOutcome.ok (str "MSGID")) rfl

/-- C10: the not-ready response of `sendMessage` carries neither a
target nor a message id, while every response produced on the ready
paths carries the normalized target — so callers cannot rely on a
target being present in every result. -/
theorem c10_not_ready_response_has_no_target (st : SvcState) (target message : Str)
    (now : Nat) (outcome : SendOutcome) :
    (st.isReady = false →
      (sendMessage st target message now outcome).1.target = none ∧
      (sendMessage st target message now outcome).1.id = none) ∧
    (st.isReady = true →
      (sendMessage st target message now outcome).1.target =
        some (formatPhoneNumber target)) := by
  constructor
  · intro h
    unfold sendMessage
    simp [h]
  · intro h
    unfold sendMessage
    cases outcome <;> simp [h]

/-- C10 witness: a not-ready call has no target while a ready call
carries the normalized target. -/
theorem c10_witness :
    (sendMessage (initState 0 1000) (str "081234567890") (str "hello") 17
        (SendOutcome.ok (str "MSGID"))).1.target = none ∧
    (sendMessage ({ initState 0 1000 with isReady := true }) (str "081234567890")
        (str "hello") 17 (SendOutcome.ok (str "MSGID"))).1.target =
      some (formatPhoneNumber (str "081234567890")) :=
  ⟨((c10_not_ready_response_has_no_target (initState 0 1000) (str "081234567890")
      (str "hello") 17 (SendOutcome.ok (str "MSGID"))).1 rfl).1,
   (c10_not_ready_response_has_no_target ({ initState 0 1000 with isReady := true })
      (str "081234567890") (str "hello") 17 (SendOutcome.ok (str "MSGID"))).2 rfl⟩

/-! ## Broadcast lemmas -/

/-- `sendMessage` never changes the readiness flag. -/
theorem sendMessage_isReady (st : SvcState) (target message : Str) (now : Nat)
    (outcome : SendOutcome) :
    (sendMessage st target message now outcome).2.1.isReady = st.isReady := by
  unfold sendMessage
  cases hr : st.isReady <;> cases outcome <;> simp [hr]

/-- A broadcast produces exactly one result per target, in every state. -/
theorem sendBroadcastAux_length (d : Nat) (message : Str) (env : Nat → SendOutcome)
    (now : Nat) :
    ∀ (targets : List Str) (st : SvcState) (i : Nat),
      (sendBroadcastAux d message env now st targets i).1.length = targets.length := by
  intro targets
  induction targets with
  | nil => intro st i; rfl
  | cons t ts ih =>
      intro st i
      simp only [sendBroadcastAux, List.length_cons]
      rw [ih]

/-- On a ready service, a broadcast yields the per-target responses in
input order and the trace of sends in input order with exactly one
suspension between each successive pair. -/
theorem sendBroadcastAux_ready (d : Nat) (message : Str) (env : Nat → SendOutcome)
    (now : Nat) :
    ∀ (targets : List Str) (st : SvcState) (i : Nat), st.isReady = true →
      (sendBroadcastAux d message env now st targets i).1 =
        expectedResults env targets i ∧
      (sendBroadcastAux d message env now st targets i).2.2 =
        expectedTrace d message targets := by
  intro targets
  induction targets with
  | nil => intro st i _; exact ⟨rfl, rfl⟩
  | cons t ts ih =>
      intro st i h
      have hone_resp : (sendMessage st t message now (env i)).1 =
          readyResponse t (env i) := by
        unfold sendMessage readyResponse
        cases env i <;> simp [h]
      have hone_ev : (sendMessage st t message now (env i)).2.2 =
          [Ev.sendEv (chatIdOf t) message] := by
        unfold sendMessage chatIdOf
        cases env i <;> simp [h]
      have hready : (sendMessage st t message now (env i)).2.1.isReady = true := by
        rw [sendMessage_isReady]; exact h
      obtain ⟨ihr, ihe⟩ := ih (sendMessage st t message now (env i)).2.1 (i + 1) hready
      constructor
      · simp only [sendBroadcastAux, expectedResults]
        rw [hone_resp, ihr]
      · simp only [sendBroadcastAux]
        rw [hone_ev, ihe]
        cases ts with
        | nil => simp [expectedTrace]
        | cons u ts => simp [expectedTrace]

/-- C3: for every target list and message, `sendBroadcast` returns
exactly one result per target (in every state, so a failing target never
aborts the rest); on a ready service the results are the per-target
responses in input order — each depending only on that target's own
transport outcome — and the action trace is the sends in input order
with the configured `messageDelay` suspension between each successive
pair and none after the last. -/
theorem c3_sendBroadcast_shape (st : SvcState) (targets : List Str) (message : Str)
    (now : Nat) (env : Nat → SendOutcome) :
    (sendBroadcast st targets message now env).1.length = targets.length ∧
    (st.isReady = true →
      (sendBroadcast st targets message now env).1 = expectedResults env targets 0 ∧
      (sendBroadcast st targets message now env).2.2 =
        expectedTrace st.messageDelay message targets) := by
  refine ⟨sendBroadcastAux_length st.messageDelay message env now targets st 0, ?_⟩
  intro h
  exact sendBroadcastAux_ready st.messageDelay message env now targets st 0 h

/-- C3 witness: a ready three-target broadcast whose middle send fails
still yields three results in order and the A,delay,B,delay,C trace. -/
theorem c3_witness :
    (sendBroadcast ({ initState 0 1000 with isReady := true })
        [str "081111111111", str "082222222222", str "083333333333"]
        (str "hello") 17
        (fun i => if i = 1 then SendOutcome.err (str "boom")
                  else SendOutcome.ok (str "MSGID"))).1.length = 3 ∧
    (sendBroadcast ({ initState 0 1000 with isReady := true })
        [str "081111111111", str "082222222222", str "083333333333"]
        (str "hello") 17
        (fun i => if i = 1 then SendOutcome.err (str "boom")
                  else SendOutcome.ok (str "MSGID"))).2.2 =
      expectedTrace 1000 (str "hello")
        [str "081111111111", str "082222222222", str "083333333333"] :=
  ⟨(c3_sendBroadcast_shape ({ initState 0 1000 with isReady := true })
      [str "081111111111", str "082222222222", str "083333333333"] (str "hello") 17
      (fun i => if i = 1 then SendOutcome.err (str "boom")
                else SendOutcome.ok (str "MSGID"))).1,
   ((c3_sendBroadcast_shape ({ initState 0 1000 with isReady := true })
      [str "081111111111", str "082222222222", str "083333333333"] (str "hello") 17
      (fun i => if i = 1 then SendOutcome.err (str "boom")
                else SendOutcome.ok (str "MSGID"))).2 rfl).2⟩

/-! ## Daily counter, logout, initialize -/

/-- C6: with a configured daily ceiling, a ready `sendMessage` first
rolls the counter over to zero when the calendar day changed, then
checks the ceiling: at or above it the call returns a `success = false`,
`status = error` response with the normalized target populated and no
transport send; below it the send is attempted and the counter is
incremented exactly on a successful dispatch (unchanged on a failed
one). -/
theorem c6_daily_counter (limit : Nat) (st : ABState) (target message today : Str)
    (now : Nat) (outcome : SendOutcome) (h : st.isReady = true) :
    (limit ≤ (if st.lastResetDate ≠ today then 0 else st.dailyMessageCount) →
      (sendMessageAB limit st target message today now outcome).1.success = false ∧
      (sendMessageAB limit st target message today now outcome).1.status =
        DispatchStatus.error ∧
      (sendMessageAB limit st target message today now outcome).1.target =
        some (formatPhoneNumber target) ∧
      (sendMessageAB limit st target message today now outcome).2.2 = [] ∧
      (sendMessageAB limit st target message today now outcome).2.1.dailyMessageCount =
        (if st.lastResetDate ≠ today then 0 else st.dailyMessageCount)) ∧
    ((if st.lastResetDate ≠ today then 0 else st.dailyMessageCount) < limit →
      (sendMessageAB limit st target message today now outcome).2.2 =
        [Ev.sendEv (chatIdOf target) message] ∧
      (sendMessageAB limit st target message today now outcome).2.1.dailyMessageCount =
        (match outcome with
         | .ok _ => (if st.lastResetDate ≠ today then 0 else st.dailyMessageCount) + 1
         | .err _ => (if st.lastResetDate ≠ today then 0 else st.dailyMessageCount))) := by
  unfold sendMessageAB chatIdOf
  by_cases hd : st.lastResetDate = today
  · constructor
    · intro hlim
      simp only [hd, ne_eq, not_true_eq_false, if_false, ite_false] at hlim ⊢
      simp [h, hlim]
    · intro hlim
      simp only [hd, ne_eq, not_true_eq_false, if_false, ite_false] at hlim ⊢
      have hno : ¬ limit ≤ st.dailyMessageCount := by omega
      cases outcome <;> simp [h, hno]
  · constructor
    · intro hlim
      simp only [ne_eq, hd, not_false_eq_true, if_true, ite_true] at hlim ⊢
      simp [h, hlim]
    · intro hlim
      simp only [ne_eq, hd, not_false_eq_true, if_true, ite_true] at hlim ⊢
      have hno : ¬ limit ≤ 0 := by omega
      cases outcome <;> simp [h, hno]

/-- C6 witness: a rollover day with the counter formerly at the ceiling:
the limit check sees the reset count 0, the send happens, and the
counter ends at 1. -/
theorem c6_witness :
    (sendMessageAB 1
        ({ isConnected := true, phoneNumber := some (str "6280000000000"),
           startTime := 0, qrDisplayed := false, messageDelay := 1000,
           isReady := true, waState := str "CONNECTED", qrCodeBase64 := none,
           messageLogs := [], dailyMessageCount := 1,
           lastResetDate := str "Mon Oct 05 2026" })
        (str "081234567890") (str "hello") (str "Tue Oct 06 2026") 17
        (SendOutcome.ok (str "MSGID"))).2.2 =
      [Ev.sendEv (chatIdOf (str "081234567890")) (str "hello")] ∧
    (sendMessageAB 1
        ({ isConnected := true, phoneNumber := some (str "6280000000000"),
           startTime := 0, qrDisplayed := false, messageDelay := 1000,
           isReady := true, waState := str "CONNECTED", qrCodeBase64 := none,
           messageLogs := [], dailyMessageCount := 1,
           lastResetDate := str "Mon Oct 05 2026" })
        (str "081234567890") (str "hello") (str "Tue Oct 06 2026") 17
        (SendOutcome.ok (str "MSGID"))).2.1.dailyMessageCount = 1 := by
  have hth := (c6_daily_counter 1
      ({ isConnected := true, phoneNumber := some (str "6280000000000"),
         startTime := 0, qrDisplayed := false, messageDelay := 1000,
         isReady := true, waState := str "CONNECTED", qrCodeBase64 := none,
         messageLogs := [], dailyMessageCount := 1,
         lastResetDate := str "Mon Oct 05 2026" })
      (str "081234567890") (str "hello") (str "Tue Oct 06 2026") 17
      (SendOutcome.ok (str "MSGID")) rfl).2 (by decide)
  exact ⟨hth.1, hth.2⟩

/-- C7: `logout` of the hardened service variant, whatever the outcomes
of the graceful transport logout and of the client teardown, returns
without error, resets the state to a fresh pre-pairing configuration
(not ready, not connected, phone number and pairing artifact cleared,
phase `REINITIALIZING`), and performs — in order — the graceful logout
attempt, the client teardown, the construction of a brand-new client,
and a background (non-awaited) `initialize`. -/
theorem c7_logout_always_resets (st : ABState) (o1 o2 : Except Str Unit) :
    logoutAB st o1 o2 =
      Except.ok
        ({ st with
           isReady := false
           isConnected := false
           phoneNumber := none
           waState := str "REINITIALIZING"
           qrCodeBase64 := none },
         [Act.clientLogout, Act.clientDestroy, Act.createClient,
          Act.initializeBackground]) := by
  cases o1 <;> cases o2 <;> rfl

/-- C8: `initialize` is a guarded no-op — result ok, state untouched, no
transport action — when the phase is already `INITIALIZING` or the
service is ready; otherwise the transport connect is invoked, and when
it fails the error propagates to the caller with the phase set to
`ERROR`. -/
theorem c8_initialize_guard_and_error (st : SvcState) (outcome : InitOutcome) :
    ((st.waState = str "INITIALIZING" ∨ st.isReady = true) →
      initializeSvc st outcome = (Except.ok (), st, [])) ∧
    (¬(st.waState = str "INITIALIZING" ∨ st.isReady = true) →
      (initializeSvc st outcome).2.2 = [Act.clientInitialize] ∧
      ∀ e, outcome = InitOutcome.fail e →
        initializeSvc st outcome =
          (Except.error e, { st with waState := str "ERROR" },
           [Act.clientInitialize])) := by
  constructor
  · intro h
    unfold initializeSvc
    simp [h]
  · intro h
    unfold initializeSvc
    cases outcome with
    | ok => simp [h]
    | fail e => simp [h]

/-- C8 witness: the guard on an already-initializing state, and the
error propagation with phase `ERROR` on a fresh state whose connect
fails. -/
theorem c8_witness :
    initializeSvc ({ initState 0 1000 with waState := str "INITIALIZING" })
        InitOutcome.ok =
      (Except.ok (), { initState 0 1000 with waState := str "INITIALIZING" }, []) ∧
    initializeSvc (initState 0 1000) (InitOutcome.fail (str "boom")) =
      (Except.error (str "boom"), { initState 0 1000 with waState := str "ERROR" },
       [Act.clientInitialize]) := by
  constructor
  · exact (c8_initialize_guard_and_error
      ({ initState 0 1000 with waState := str "INITIALIZING" }) InitOutcome.ok).1
      (Or.inl rfl)
  · exact ((c8_initialize_guard_and_error (initState 0 1000)
      (InitOutcome.fail (str "boom"))).2 (by decide)).2 (str "boom") rfl

end WaGateway
